import Mathlib

/-!
# Verification of `scripts/upload_backup.py`

A shallow embedding of the backup upload / retention script.  Remote listing
entries become a record type, the retention sweeps become pure functions on
listings, and the effectful parts (the upload retry loop, the deletion loop,
the per-category upload phases of `main`) become functions from explicit
outcome/state parameters to results and call traces.

Python's `sorted` is a stable ascending sort; `List.insertionSort` with the
non-strict key order inserts an element *before* later elements with an equal
key, which is exactly the stable ascending order, so the two agree on every
input list.
-/

namespace UploadBackup

/-- One entry of a remote listing (a folder from `data.folders` or a file from
`data.files`): an `id`, a `name` and a possibly absent `date` field.  The
script reads a missing name as `""` (`f.get("name", "")`), so `name` is a
plain string; `date` stays optional because the script supplies the default
`0` only at its use sites (`f.get("date", 0)`). -/
structure RemoteEntry where
  id : Int
  name : String
  date : Option Int
deriving DecidableEq, Repr

/-- The sort key used by every sweep: `f.get("date", 0)`. -/
def dateKey (f : RemoteEntry) : Int :=
  f.date.getD 0

/-- Key order for the retention sorts: `key=lambda f: f.get("date", 0)`. -/
def dateLE (a b : RemoteEntry) : Prop :=
  dateKey a ≤ dateKey b

instance : DecidableRel dateLE := fun a b =>
  inferInstanceAs (Decidable (dateKey a ≤ dateKey b))

instance : IsTotal RemoteEntry dateLE :=
  ⟨fun a b => Int.le_total (dateKey a) (dateKey b)⟩

instance : IsTrans RemoteEntry dateLE :=
  ⟨fun _ _ _ h1 h2 => le_trans h1 h2⟩

/-- `sorted(entries, key=lambda f: f.get("date", 0))`. -/
def sortByDate (l : List RemoteEntry) : List RemoteEntry :=
  l.insertionSort dateLE

/-- Python slice `l[:-k]` for a nonnegative `k`.  Since `-0 == 0` in Python,
`l[:-0]` is `l[:0] = []`; for `k ≥ 1` it is the first `length - k` elements. -/
def pySliceDropLast (l : List α) (k : Nat) : List α :=
  if k = 0 then [] else l.take (l.length - k)

/-- The complement of `pySliceDropLast`: the elements a bucket's deletion loop
does not touch, so that `pySliceDropLast l k ++ pyKeepLast l k = l`. -/
def pyKeepLast (l : List α) (k : Nat) : List α :=
  if k = 0 then l else l.drop (l.length - k)

theorem pySliceDropLast_append_pyKeepLast (l : List α) (k : Nat) :
    pySliceDropLast l k ++ pyKeepLast l k = l := by
  unfold pySliceDropLast pyKeepLast
  by_cases h : k = 0 <;> simp [h]

/-- Python `s.startswith(p)`: `p`'s characters are a prefix of `s`'s. -/
def pyStartsWith (s p : String) : Bool :=
  p.data.isPrefixOf s.data

/-- The matched entries of one sweep bucket:
`[f for f in folders if f.get("name", "").startswith(pfx)]`. -/
def bucketMatched (pfx : String) (folders : List RemoteEntry) : List RemoteEntry :=
  folders.filter (fun f => pyStartsWith f.name pfx)

/-- The entries one sweep bucket soft-deletes, in deletion order:
`sorted(matched, key=...)[:-keep]`. -/
def bucketDeletes (pfx : String) (keep : Nat) (folders : List RemoteEntry) :
    List RemoteEntry :=
  pySliceDropLast (sortByDate (bucketMatched pfx folders)) keep

/-- The matched entries one sweep bucket leaves in place. -/
def bucketKept (pfx : String) (keep : Nat) (folders : List RemoteEntry) :
    List RemoteEntry :=
  pyKeepLast (sortByDate (bucketMatched pfx folders)) keep

/-- `cleanup_two_types` (lines 194-206): against one listing of the docker
parent, delete the stale `nightly-` bucket then the stale `biweekly-` bucket.
The value is the sequence of entries passed to `soft_delete_folder`. -/
def cleanup_two_types (folders : List RemoteEntry)
    (keep_nightly keep_biweekly : Nat) : List RemoteEntry :=
  bucketDeletes "nightly-" keep_nightly folders
    ++ bucketDeletes "biweekly-" keep_biweekly folders

/-- `cleanup_storage_types` (lines 209-222): the `monthly-` bucket then the
`snapshot-` bucket against one listing of the storage parent. -/
def cleanup_storage_types (folders : List RemoteEntry)
    (keep_monthly keep_snapshot : Nat) : List RemoteEntry :=
  bucketDeletes "monthly-" keep_monthly folders
    ++ bucketDeletes "snapshot-" keep_snapshot folders

/-- The sweep step of `cleanup_bitwarden_backups` (lines 234-238): the files
listing of the resolved bitwarden folder, sorted by date, all but the last
`keep` deleted.  There is no name filter; every listed file is matched. -/
def cleanup_bitwarden_backups (files : List RemoteEntry) (keep : Nat) :
    List RemoteEntry :=
  pySliceDropLast (sortByDate files) keep

-- Basic facts about the sorted matched list, shared by the sweep claims.

theorem sortByDate_perm (l : List RemoteEntry) : (sortByDate l).Perm l :=
  List.perm_insertionSort dateLE l

theorem sortByDate_length (l : List RemoteEntry) :
    (sortByDate l).length = l.length :=
  (sortByDate_perm l).length_eq

theorem sortByDate_sorted (l : List RemoteEntry) :
    (sortByDate l).Pairwise dateLE :=
  List.sorted_insertionSort dateLE l

theorem mem_bucketMatched {pfx : String} {folders : List RemoteEntry}
    {f : RemoteEntry} (h : f ∈ bucketMatched pfx folders) :
    f ∈ folders ∧ pyStartsWith f.name pfx = true := by
  have := List.mem_filter.mp h
  exact ⟨this.1, this.2⟩

theorem bucketDeletes_append_bucketKept (pfx : String) (keep : Nat)
    (folders : List RemoteEntry) :
    bucketDeletes pfx keep folders ++ bucketKept pfx keep folders
      = sortByDate (bucketMatched pfx folders) :=
  pySliceDropLast_append_pyKeepLast _ _

/-- Any deleted entry sorts no later than any kept entry of the same bucket. -/
theorem bucketDeletes_le_bucketKept (pfx : String) (keep : Nat)
    (folders : List RemoteEntry) {d r : RemoteEntry}
    (hd : d ∈ bucketDeletes pfx keep folders)
    (hr : r ∈ bucketKept pfx keep folders) :
    dateKey d ≤ dateKey r := by
  have hsorted : (bucketDeletes pfx keep folders
      ++ bucketKept pfx keep folders).Pairwise dateLE := by
    rw [bucketDeletes_append_bucketKept]
    exact sortByDate_sorted _
  exact (List.pairwise_append.mp hsorted).2.2 d hd r hr

theorem mem_of_mem_bucketDeletes {pfx : String} {keep : Nat}
    {folders : List RemoteEntry} {d : RemoteEntry}
    (hd : d ∈ bucketDeletes pfx keep folders) :
    d ∈ bucketMatched pfx folders := by
  have : d ∈ bucketDeletes pfx keep folders ++ bucketKept pfx keep folders :=
    List.mem_append.mpr (Or.inl hd)
  rw [bucketDeletes_append_bucketKept] at this
  exact ((sortByDate_perm _).mem_iff).mp this

/-- **C1.** For a bucket with `N` matched entries and keep count `k`, one sweep
deletes exactly `max 0 (N - k)` entries and retains the `k` entries with the
largest `createdAt` — amended for `k = 0`: the Python slice `[:-0]` is empty,
so a keep count of zero deletes nothing (rather than everything); for `k ≥ 1`
the deletion count is `N - k` (so nothing when `N ≤ k`), the kept entries
number `min N k`, every deleted entry's date is at most every kept entry's
date, and deleted and kept entries together are exactly the matched ones. -/
theorem C1_sweep_bucket_retention (pfx : String) (k : Nat)
    (folders : List RemoteEntry) :
    (k = 0 → bucketDeletes pfx k folders = [])
    ∧ (1 ≤ k →
        (bucketDeletes pfx k folders).length
            = (bucketMatched pfx folders).length - k
        ∧ (bucketKept pfx k folders).length
            = min (bucketMatched pfx folders).length k
        ∧ (∀ d ∈ bucketDeletes pfx k folders,
            ∀ r ∈ bucketKept pfx k folders, dateKey d ≤ dateKey r)
        ∧ (bucketDeletes pfx k folders ++ bucketKept pfx k folders).Perm
            (bucketMatched pfx folders)) := by
  constructor
  · intro hk
    simp [bucketDeletes, pySliceDropLast, hk]
  · intro hk
    have hk0 : k ≠ 0 := by omega
    have hlen : (sortByDate (bucketMatched pfx folders)).length
        = (bucketMatched pfx folders).length := sortByDate_length _
    refine ⟨?_, ?_, ?_, ?_⟩
    · unfold bucketDeletes pySliceDropLast
      rw [if_neg hk0, List.length_take, hlen]
      omega
    · unfold bucketKept pyKeepLast
      rw [if_neg hk0, List.length_drop, hlen]
      omega
    · intro d hd r hr
      exact bucketDeletes_le_bucketKept pfx k folders hd hr
    · rw [bucketDeletes_append_bucketKept]
      exact sortByDate_perm _

/-- Witness for C1 at a concrete bucket: two nightly entries, keep 1. -/
theorem C1_sweep_bucket_retention_witness :
    (bucketDeletes "nightly-" 1
      [⟨1, "nightly-20240101", some 1⟩, ⟨2, "nightly-20240102", some 2⟩]).length
      = 1 :=
  (((C1_sweep_bucket_retention "nightly-" 1
    [⟨1, "nightly-20240101", some 1⟩, ⟨2, "nightly-20240102", some 2⟩]).2
      (by decide)).1).trans (by decide)

/-- C1 as stated is false at keep = 0: the claim demands that every matched
entry be deleted, but `sorted[:-0]` is the empty slice, so the sweep deletes
nothing at all. -/
theorem C1_counterexample :
    bucketMatched "nightly-" [⟨1, "nightly-20240101", some 100⟩]
        = [⟨1, "nightly-20240101", some 100⟩]
    ∧ bucketDeletes "nightly-" 0 [⟨1, "nightly-20240101", some 100⟩] = [] := by
  decide

/-- **C5.** Every entry deleted by a sweep bucket carries that bucket's
literal name prefix, and its date is at most the date of every entry the
bucket retains: a sweep never deletes an entry of a different category, nor
an entry newer than one it discards. -/
theorem C5_sweep_deletes_only_stale_matches (pfx : String) (k : Nat)
    (folders : List RemoteEntry) :
    ∀ d ∈ bucketDeletes pfx k folders,
      pyStartsWith d.name pfx = true
      ∧ ∀ r ∈ bucketKept pfx k folders, dateKey d ≤ dateKey r := by
  intro d hd
  exact ⟨(mem_bucketMatched (mem_of_mem_bucketDeletes hd)).2,
    fun r hr => bucketDeletes_le_bucketKept pfx k folders hd hr⟩

/-- Witness for C5: with a biweekly entry present, the nightly bucket's one
deletion carries the nightly prefix and is older than everything kept. -/
theorem C5_sweep_deletes_only_stale_matches_witness :
    pyStartsWith (RemoteEntry.mk 2 "nightly-b" (some 1)).name "nightly-" = true
    ∧ ∀ r ∈ bucketKept "nightly-" 1
        [⟨1, "nightly-a", some 3⟩, ⟨2, "nightly-b", some 1⟩,
          ⟨3, "biweekly-c", some 2⟩],
        dateKey ⟨2, "nightly-b", some 1⟩ ≤ dateKey r :=
  C5_sweep_deletes_only_stale_matches "nightly-" 1
    [⟨1, "nightly-a", some 3⟩, ⟨2, "nightly-b", some 1⟩,
      ⟨3, "biweekly-c", some 2⟩]
    ⟨2, "nightly-b", some 1⟩ (by decide)

/-- **C9.** Sweep is idempotent: if a second run's matched listing consists
(in any order) of exactly what the first run kept, the second run deletes
nothing — for keep 0 the first run already deleted nothing and the slice is
empty again, for keep ≥ 1 at most `keep` entries remain. -/
theorem C9_sweep_idempotent (pfx : String) (k : Nat)
    (folders folders2 : List RemoteEntry)
    (h : (bucketMatched pfx folders2).Perm (bucketKept pfx k folders)) :
    bucketDeletes pfx k folders2 = [] := by
  by_cases hk : k = 0
  · simp [bucketDeletes, pySliceDropLast, hk]
  · have hlen2 : (bucketMatched pfx folders2).length
        = (bucketKept pfx k folders).length := h.length_eq
    have hkept : (bucketKept pfx k folders).length ≤ k := by
      unfold bucketKept pyKeepLast
      rw [if_neg hk, List.length_drop]
      omega
    unfold bucketDeletes pySliceDropLast
    rw [if_neg hk]
    have hz : (sortByDate (bucketMatched pfx folders2)).length - k = 0 := by
      rw [sortByDate_length]
      omega
    rw [hz, List.take_zero]

/-- Witness for C9: rerunning the nightly sweep on exactly the kept entry
deletes nothing. -/
theorem C9_sweep_idempotent_witness :
    bucketDeletes "nightly-" 1 [⟨2, "nightly-20240102", some 2⟩] = [] :=
  C9_sweep_idempotent "nightly-" 1
    [⟨1, "nightly-20240101", some 1⟩, ⟨2, "nightly-20240102", some 2⟩]
    [⟨2, "nightly-20240102", some 2⟩] (by decide)

/-- **C10.** An entry without a `date` field is keyed `0` by
`f.get("date", 0)`: in the sorted bucket no positive-dated entry ever
precedes it, and when it is the only dateless entry, every other match has a
positive date and the bucket exceeds its keep count, it is the very first
deletion candidate and is deleted. -/
theorem C10_dateless_entry_deleted_first (pfx : String) (k : Nat)
    (folders : List RemoteEntry) (e : RemoteEntry) (hk : 1 ≤ k)
    (he : e ∈ bucketMatched pfx folders) (hdate : e.date = none)
    (hpos : ∀ x ∈ bucketMatched pfx folders, x ≠ e → 0 < dateKey x)
    (hN : k < (bucketMatched pfx folders).length) :
    (sortByDate (bucketMatched pfx folders)).Pairwise
      (fun a b => b.date = none → ¬ 0 < dateKey a)
    ∧ e ∈ bucketDeletes pfx k folders := by
  have hlen : (sortByDate (bucketMatched pfx folders)).length
      = (bucketMatched pfx folders).length := sortByDate_length _
  have hperm := sortByDate_perm (bucketMatched pfx folders)
  constructor
  · refine (sortByDate_sorted _).imp ?_
    intro a b hab hbnone
    have hb0 : dateKey b = 0 := by simp [dateKey, hbnone]
    have : dateKey a ≤ 0 := le_of_le_of_eq hab hb0
    omega
  · obtain ⟨a, rest, hcons⟩ :
        ∃ a rest, sortByDate (bucketMatched pfx folders) = a :: rest := by
      cases hS : sortByDate (bucketMatched pfx folders) with
      | nil => rw [hS] at hlen; simp at hlen; omega
      | cons a rest => exact ⟨a, rest, rfl⟩
    have he0 : dateKey e = 0 := by simp [dateKey, hdate]
    have hea : a = e := by
      by_contra hne
      have hamem : a ∈ bucketMatched pfx folders :=
        hperm.mem_iff.mp (hcons ▸ List.mem_cons_self a rest)
      have hapos : 0 < dateKey a := hpos a hamem hne
      have heS : e ∈ sortByDate (bucketMatched pfx folders) :=
        hperm.mem_iff.mpr he
      rw [hcons] at heS
      rcases List.mem_cons.mp heS with heq | hrest
      · exact hne heq.symm
      · have hp := sortByDate_sorted (bucketMatched pfx folders)
        rw [hcons] at hp
        have := (List.pairwise_cons.mp hp).1 e hrest
        unfold dateLE at this
        omega
    have hk0 : k ≠ 0 := by omega
    unfold bucketDeletes pySliceDropLast
    rw [if_neg hk0, hcons]
    have hlen3 : (a :: rest).length = (bucketMatched pfx folders).length := by
      rw [← hcons]
      exact hlen
    have hsub : (a :: rest).length - k = ((a :: rest).length - k - 1) + 1 := by
      rw [hlen3]
      omega
    rw [hsub, List.take_succ_cons]
    exact List.mem_cons.mpr (Or.inl hea.symm)

/-- Witness for C10: a dateless nightly entry among positive-dated ones is
deleted by a keep-1 sweep over two matches. -/
theorem C10_dateless_entry_deleted_first_witness :
    (sortByDate (bucketMatched "nightly-"
        [⟨1, "nightly-a", none⟩, ⟨2, "nightly-b", some 5⟩])).Pairwise
      (fun a b => b.date = none → ¬ 0 < dateKey a)
    ∧ (⟨1, "nightly-a", none⟩ : RemoteEntry)
        ∈ bucketDeletes "nightly-" 1
            [⟨1, "nightly-a", none⟩, ⟨2, "nightly-b", some 5⟩] :=
  C10_dateless_entry_deleted_first "nightly-" 1
    [⟨1, "nightly-a", none⟩, ⟨2, "nightly-b", some 5⟩]
    ⟨1, "nightly-a", none⟩ (by decide) (by decide) rfl (by decide) (by decide)

-- The upload retry loop of `upload_file` (lines 160-188).

/-- `MAX_UPLOAD_RETRIES = 3` (line 56). -/
def MAX_UPLOAD_RETRIES : Nat := 3

/-- `RETRY_DELAY = 5` seconds (line 57); every retry sleeps this constant. -/
def RETRY_DELAY : Nat := 5

/-- What one `session.post` + `raise_for_status` of the upload does:
a transport-layer exception (`ChunkedEncodingError`, `ConnectionError`,
`Timeout`), an `HTTPError` carrying the response body, or a JSON ack. -/
inductive AttemptOutcome where
  | transport (msg : String)
  | httpError (msg : String) (body : String)
  | success (ack : String)
deriving DecidableEq, Repr

/-- How `upload_file` terminates: the returned ack, the `RuntimeError` raised
on an `HTTPError` (with the first 1000 characters of the body), or the
`RuntimeError` raised after the loop names the file and the last stored
transport exception. -/
inductive UploadResult where
  | ack (a : String)
  | httpFail (msg : String) (bodyHead : String)
  | exhausted (file : String) (lastExc : Option String)
deriving DecidableEq, Repr

/-- The retry loop of `upload_file`, the behaviour of attempt `i` supplied by
`outcomes i`.  `attempt` is the Python loop variable, `remaining` the loop
iterations left, `lastExc` the `last_exc` accumulator, `delays` the number of
`time.sleep(RETRY_DELAY)` calls so far.  A transport failure stores the
exception, sleeps and continues; an HTTP error raises at once with the body
truncated to 1000 characters; falling off the loop raises naming the file and
`last_exc`.  The value is `(result, total sleeps, index of last attempt made)`. -/
def uploadGo (file : String) (outcomes : Nat → AttemptOutcome) :
    Nat → Nat → Option String → Nat → UploadResult × Nat × Nat
  | attempt, 0, lastExc, delays => (.exhausted file lastExc, delays, attempt - 1)
  | attempt, remaining + 1, _lastExc, delays =>
    match outcomes attempt with
    | .success a => (.ack a, delays, attempt)
    | .httpError m b => (.httpFail m (b.take 1000), delays, attempt)
    | .transport e =>
      uploadGo file outcomes (attempt + 1) remaining (some e) (delays + 1)

/-- `upload_file` (lines 160-188): `for attempt in range(1, MAX_UPLOAD_RETRIES + 1)`
starting with `last_exc = None` and no sleeps yet. -/
def upload_file (file : String) (outcomes : Nat → AttemptOutcome) :
    UploadResult × Nat × Nat :=
  uploadGo file outcomes 1 MAX_UPLOAD_RETRIES none 0

theorem uploadGo_lastAttempt_le (file : String) (outcomes : Nat → AttemptOutcome) :
    ∀ (rem att : Nat) (last : Option String) (d : Nat),
      (uploadGo file outcomes att rem last d).2.2 ≤ att + rem - 1 := by
  intro rem
  induction rem with
  | zero =>
    intro att last d
    simp [uploadGo]
  | succ rem ih =>
    intro att last d
    simp only [uploadGo]
    cases outcomes att with
    | success a => simp
    | httpError m b => simp
    | transport e =>
      have := ih (att + 1) (some e) (d + 1)
      simpa using Nat.le_trans this (by omega)

theorem uploadGo_retry_only_transport (file : String)
    (outcomes : Nat → AttemptOutcome) :
    ∀ (rem att : Nat) (last : Option String) (d j : Nat), att ≤ j →
      j < (uploadGo file outcomes att rem last d).2.2 →
      ∃ e, outcomes j = .transport e := by
  intro rem
  induction rem with
  | zero =>
    intro att last d j hle hlt
    simp only [uploadGo] at hlt
    omega
  | succ rem ih =>
    intro att last d j hle hlt
    simp only [uploadGo] at hlt
    cases hout : outcomes att with
    | success a => rw [hout] at hlt; simp at hlt; omega
    | httpError m b => rw [hout] at hlt; simp at hlt; omega
    | transport e =>
      rw [hout] at hlt
      rcases Nat.eq_or_lt_of_le hle with heq | hlt2
      · exact ⟨e, heq ▸ hout⟩
      · exact ih (att + 1) (some e) (d + 1) j hlt2 hlt

/-- **C6.** The upload loop makes at most 3 attempts; an attempt is followed
by another only when it failed at the transport layer; three transport
failures exhaust the loop into a terminal error naming the file and the last
underlying exception, after three fixed-delay sleeps; and transport failures
on attempts 1 and 2 followed by success on attempt 3 yield that ack with
exactly two retry delays. -/
theorem C6_upload_retry_policy (file : String) (outcomes : Nat → AttemptOutcome)
    (e1 e2 e3 a : String) :
    ((upload_file file outcomes).2.2 ≤ MAX_UPLOAD_RETRIES)
    ∧ (∀ j, 1 ≤ j → j < (upload_file file outcomes).2.2 →
        ∃ e, outcomes j = .transport e)
    ∧ (outcomes 1 = .transport e1 → outcomes 2 = .transport e2 →
        outcomes 3 = .transport e3 →
        upload_file file outcomes = (.exhausted file (some e3), 3, 3))
    ∧ (outcomes 1 = .transport e1 → outcomes 2 = .transport e2 →
        outcomes 3 = .success a →
        upload_file file outcomes = (.ack a, 2, 3)) := by
  refine ⟨?_, ?_, ?_, ?_⟩
  · exact uploadGo_lastAttempt_le file outcomes MAX_UPLOAD_RETRIES 1 none 0
  · intro j h1 hlt
    exact uploadGo_retry_only_transport file outcomes MAX_UPLOAD_RETRIES 1 none 0 j h1 hlt
  · intro h1 h2 h3
    simp [upload_file, MAX_UPLOAD_RETRIES, uploadGo, h1, h2, h3]
  · intro h1 h2 h3
    simp [upload_file, MAX_UPLOAD_RETRIES, uploadGo, h1, h2, h3]

/-- Witness for C6: reset, timeout, then success gives the ack after exactly
two delays and three attempts. -/
theorem C6_upload_retry_policy_witness :
    upload_file "db.tar"
        (fun i => if i = 1 then .transport "connection reset"
          else if i = 2 then .transport "read timeout"
          else AttemptOutcome.success "saved")
      = (.ack "saved", 2, 3) :=
  (C6_upload_retry_policy "db.tar"
    (fun i => if i = 1 then .transport "connection reset"
      else if i = 2 then .transport "read timeout"
      else AttemptOutcome.success "saved")
    "connection reset" "read timeout" "unused" "saved").2.2.2 rfl rfl rfl

/-- **C7.** An `HTTPError` on any attempt is terminal on the spot: whatever
attempt it strikes (the earlier ones having been transport failures, the only
way a later attempt is reached), the loop raises the `RuntimeError` carrying
the first 1000 characters of the response body from that very attempt, with
no further attempts and no further delay. -/
theorem C7_http_error_never_retried (file : String)
    (outcomes : Nat → AttemptOutcome) (j : Nat) (m b : String)
    (hj1 : 1 ≤ j) (hj3 : j ≤ MAX_UPLOAD_RETRIES)
    (hbefore : ∀ i, 1 ≤ i → i < j → ∃ e, outcomes i = .transport e)
    (hj : outcomes j = .httpError m b) :
    upload_file file outcomes = (.httpFail m (b.take 1000), j - 1, j) := by
  have hj3' : j ≤ 3 := hj3
  interval_cases j
  · simp [upload_file, MAX_UPLOAD_RETRIES, uploadGo, hj]
  · obtain ⟨x1, hx1⟩ := hbefore 1 (by omega) (by omega)
    simp [upload_file, MAX_UPLOAD_RETRIES, uploadGo, hx1, hj]
  · obtain ⟨x1, hx1⟩ := hbefore 1 (by omega) (by omega)
    obtain ⟨x2, hx2⟩ := hbefore 2 (by omega) (by omega)
    simp [upload_file, MAX_UPLOAD_RETRIES, uploadGo, hx1, hx2, hj]

/-- Witness for C7: a 403 on attempt 1 fails at once, zero delays. -/
theorem C7_http_error_never_retried_witness :
    upload_file "db.tar" (fun _ => .httpError "403 Client Error" "Forbidden")
      = (.httpFail "403 Client Error" ("Forbidden".take 1000), 0, 1) :=
  C7_http_error_never_retried "db.tar"
    (fun _ => .httpError "403 Client Error" "Forbidden") 1
    "403 Client Error" "Forbidden" (by decide) (by decide)
    (fun i h1 h2 => absurd h2 (Nat.not_lt.mpr h1)) rfl

/-- `create_cloud_folder` id extraction (lines 115-119).  The two id sites of
the response are modelled as optional integers: `nested` is
`data.get("data", {}).get("folder", {}).get("id")` and `top` is
`data.get("id")`.  Python's `or` yields `nested` when it is truthy (present
and nonzero), otherwise `top`; `if not folder_id:` then raises
`RuntimeError("Failed to create folder. ...")` on a missing or zero id. -/
def create_cloud_folder (nested top : Option Int) : Except String Int :=
  let folder_id : Option Int :=
    match nested with
    | some n => if n ≠ 0 then some n else top
    | none => top
  match folder_id with
  | some v => if v ≠ 0 then .ok v else .error "Failed to create folder"
  | none => .error "Failed to create folder"

/-- C8 as stated is false for a zero id: a response carrying the nested id 0
(`{"data": {"folder": {"id": 0}}}`) carries an id under an accepted shape,
yet Python truthiness makes the function raise instead of returning it. -/
theorem C8_counterexample :
    create_cloud_folder (some 0) none = .error "Failed to create folder" := rfl

/-- **C8** (amended): the function returns a *nonzero* id found under either
shape — the nested one preferred, the top-level one when the nested id is
missing or zero — and fails with the hard `RuntimeError`, never a default,
whenever both sites are missing or zero; zero ids are treated as absent by
Python truthiness. -/
theorem C8_create_folder_id_truthiness (nested top : Option Int) :
    (∀ n, nested = some n → n ≠ 0 → create_cloud_folder nested top = .ok n)
    ∧ ((nested = none ∨ nested = some 0) → ∀ t, top = some t → t ≠ 0 →
        create_cloud_folder nested top = .ok t)
    ∧ ((nested = none ∨ nested = some 0) → (top = none ∨ top = some 0) →
        create_cloud_folder nested top = .error "Failed to create folder") := by
  refine ⟨?_, ?_, ?_⟩
  · intro n hn hnz
    subst hn
    simp [create_cloud_folder, hnz]
  · intro hcase t ht htz
    subst ht
    rcases hcase with h | h <;> subst h <;> simp [create_cloud_folder, htz]
  · intro hnested htop
    rcases hnested with h | h <;> subst h <;>
      rcases htop with h2 | h2 <;> subst h2 <;> simp [create_cloud_folder]

/-- Witness for C8: a nested id 42 is returned. -/
theorem C8_create_folder_id_truthiness_witness :
    create_cloud_folder (some 42) none = .ok 42 :=
  (C8_create_folder_id_truthiness (some 42) none).1 42 rfl (by decide)

-- Call traces of the category upload phases of `main` and
-- `upload_new_storage_backups` (for C2), the fallible deletion loop (for C3)
-- and the bitwarden per-file upload decision (for C4).

/-- `DOCKER_PARENT_FOLDER_ID` (line 31). -/
def DOCKER_PARENT_FOLDER_ID : Int := 17922957

/-- `STORAGE_PARENT_FOLDER_ID` (line 32). -/
def STORAGE_PARENT_FOLDER_ID : Int := 17922958

/-- `BITWARDEN_PARENT_FOLDER_ID` (line 33). -/
def BITWARDEN_PARENT_FOLDER_ID : Int := 17922956

/-- A remote API call issued by an upload phase. -/
inductive ApiCall where
  | createFolder (name : String) (parentId : Int)
  | upload (folderId : Int) (fileName : String)
  | softDelete (entryId : Int)
deriving DecidableEq, Repr

/-- `cloud_has_folder` (lines 244-246): whether any entry of the parent's
child-folder listing (`data.folders`) bears exactly the local name,
`any(f.get("name") == local_folder_name for f in folders)`. -/
def cloud_has_folder (folders : List RemoteEntry) (localName : String) : Bool :=
  folders.any (fun f => f.name == localName)

/-- The create/upload calls of the docker phase of `main` (lines 314-322)
when a latest local backup set named `latestName` with sorted part files
`parts` exists: `create_cloud_folder` under the docker parent, then one
upload per part into the returned folder id `newId`.  `main` consults no
remote listing first — there is no `cloud_has_folder` check in this phase. -/
def docker_phase_upload_calls (latestName : String) (parts : List String)
    (newId : Int) : List ApiCall :=
  ApiCall.createFolder latestName DOCKER_PARENT_FOLDER_ID
    :: parts.map (fun p => ApiCall.upload newId p)

/-- The create/upload calls `upload_new_storage_backups` issues for one
candidate set (lines 262-268 for the snapshot, lines 272-278 for the
monthly): nothing at all when `cloud_has_folder` finds the candidate's name
in the storage parent's listing, otherwise a create followed by the part
uploads. -/
def storage_candidate_upload_calls (name : String) (parts : List String)
    (remoteFolders : List RemoteEntry) (newId : Int) : List ApiCall :=
  if cloud_has_folder remoteFolders name then []
  else ApiCall.createFolder name STORAGE_PARENT_FOLDER_ID
    :: parts.map (fun p => ApiCall.upload newId p)

/-- C2 as stated is false for the docker category: the remote docker parent
already lists a folder of exactly the local set's name, yet the docker phase
still issues the create-folder call and the uploads. -/
theorem C2_counterexample :
    cloud_has_folder [⟨7, "nightly-20240101", some 1⟩] "nightly-20240101" = true
    ∧ ApiCall.createFolder "nightly-20240101" DOCKER_PARENT_FOLDER_ID
        ∈ docker_phase_upload_calls "nightly-20240101" ["db.tar"] 99
    ∧ ApiCall.upload 99 "db.tar"
        ∈ docker_phase_upload_calls "nightly-20240101" ["db.tar"] 99 := by
  decide

/-- **C2** (amended): the presence short-circuit holds for the storage
category — a snapshot or monthly candidate whose name is already listed under
the storage parent produces no create-folder call and no upload calls — while
the docker phase always issues its create-folder call and uploads, presence
or not. -/
theorem C2_storage_presence_short_circuits (name : String) (parts : List String)
    (remoteFolders : List RemoteEntry) (newId : Int)
    (h : cloud_has_folder remoteFolders name = true) :
    storage_candidate_upload_calls name parts remoteFolders newId = []
    ∧ docker_phase_upload_calls name parts newId
        = ApiCall.createFolder name DOCKER_PARENT_FOLDER_ID
            :: parts.map (fun p => ApiCall.upload newId p) :=
  ⟨by simp [storage_candidate_upload_calls, h], rfl⟩

/-- Witness for C2 (amended) at a present snapshot name. -/
theorem C2_storage_presence_short_circuits_witness :
    storage_candidate_upload_calls "snapshot-202401" ["part0"]
        [⟨4, "snapshot-202401", some 9⟩] 77 = []
    ∧ docker_phase_upload_calls "snapshot-202401" ["part0"] 77
        = ApiCall.createFolder "snapshot-202401" DOCKER_PARENT_FOLDER_ID
            :: [ApiCall.upload 77 "part0"] :=
  C2_storage_presence_short_circuits "snapshot-202401" ["part0"]
    [⟨4, "snapshot-202401", some 9⟩] 77 (by decide)

/-- One bucket's deletion loop with the outcome of each `soft_delete_folder`
call supplied by `outcome` (keyed by entry id).  `soft_delete_folder`
(lines 130-136) ends in `raise_for_status`, and no cleanup loop wraps the
call in `try`, so a failing delete raises out of the loop at once.  The value
is the ids actually passed to `soft_delete_folder`, in order, paired with the
propagated exception, if any. -/
def runDeletes (outcome : Int → Except String Unit) :
    List RemoteEntry → List Int × Option String
  | [] => ([], none)
  | f :: fs =>
    match outcome f.id with
    | .ok _ =>
      let r := runDeletes outcome fs
      (f.id :: r.1, r.2)
    | .error e => ([f.id], some e)

/-- `cleanup_two_types` with fallible deletions: the nightly loop runs first;
its exception propagates out of the function immediately, so the biweekly
loop is reached only when every nightly deletion succeeded. -/
def cleanup_two_types_run (outcome : Int → Except String Unit)
    (folders : List RemoteEntry) (keep_nightly keep_biweekly : Nat) :
    List Int × Option String :=
  let r1 := runDeletes outcome (bucketDeletes "nightly-" keep_nightly folders)
  match r1.2 with
  | some e => (r1.1, some e)
  | none =>
    let r2 := runDeletes outcome (bucketDeletes "biweekly-" keep_biweekly folders)
    (r1.1 ++ r2.1, r2.2)

/-- C3 as stated is false: with two stale nightly entries (ids 1 and 2) and
the delete of id 1 failing, the sweep attempts only id 1 — the remaining
stale entry is never attempted and the error propagates out of the sweep
instead of being batched into a warning. -/
theorem C3_counterexample :
    (bucketDeletes "nightly-" 1
        [⟨1, "nightly-a", some 1⟩, ⟨2, "nightly-b", some 2⟩,
          ⟨3, "nightly-c", some 3⟩]).map (fun f => f.id) = [1, 2]
    ∧ cleanup_two_types_run
        (fun i => if i = 1 then .error "HTTP 500" else .ok ())
        [⟨1, "nightly-a", some 1⟩, ⟨2, "nightly-b", some 2⟩,
          ⟨3, "nightly-c", some 3⟩] 1 5
      = ([1], some "HTTP 500") := by
  decide

/-- **C3** (amended): a failing soft-delete aborts the sweep on the spot —
every stale entry before it is deleted, the failing entry is the last one
attempted, no later stale entry is attempted, and the exception propagates
(aborting the run) rather than being collected into a post-loop warning. -/
theorem C3_delete_failure_aborts_sweep (outcome : Int → Except String Unit)
    (l1 l2 : List RemoteEntry) (f : RemoteEntry) (e : String)
    (h1 : ∀ x ∈ l1, outcome x.id = .ok ())
    (h2 : outcome f.id = .error e) :
    runDeletes outcome (l1 ++ f :: l2)
      = (l1.map (fun x => x.id) ++ [f.id], some e) := by
  induction l1 with
  | nil => simp [runDeletes, h2]
  | cons a l1 ih =>
    have ha : outcome a.id = .ok () := h1 a (List.mem_cons_self a l1)
    simp only [List.cons_append, runDeletes, ha]
    simp only [List.append_eq]
    rw [ih (fun x hx => h1 x (List.mem_cons_of_mem a hx))]
    simp

/-- Witness for C3 (amended): delete of id 2 fails; id 1 is deleted, id 3 is
never attempted. -/
theorem C3_delete_failure_aborts_sweep_witness :
    runDeletes (fun i => if i = 2 then .error "boom" else .ok ())
        ([⟨1, "nightly-a", some 1⟩]
          ++ (⟨2, "nightly-b", some 2⟩ : RemoteEntry)
            :: [⟨3, "nightly-c", some 3⟩])
      = ([1, 2], some "boom") := by
  have := C3_delete_failure_aborts_sweep
    (fun i => if i = 2 then .error "boom" else .ok ())
    [⟨1, "nightly-a", some 1⟩] [⟨3, "nightly-c", some 3⟩]
    ⟨2, "nightly-b", some 2⟩ "boom"
    (by intro x hx; rw [List.mem_singleton] at hx; subst hx; rfl) rfl
  simpa using this

/-- `Path(name).suffix == ".json"` (line 295): the name ends in `".json"` and
the stem is nonempty — pathlib yields an empty suffix when the final
component's only dot is its leading character. -/
def hasJsonSuffix (name : String) : Bool :=
  (".json".data.isSuffixOf name.data) && decide (5 < name.data.length)

/-- Character-wise lexicographic comparison of two names — the order in which
`sorted(root.iterdir())` visits the entries of one directory. -/
def lexLe : List Char → List Char → Bool
  | [], _ => true
  | _ :: _, [] => false
  | a :: as, b :: bs => if a < b then true else if b < a then false else lexLe as bs

def pathLE (a b : String) : Prop :=
  lexLe a.data b.data = true

instance : DecidableRel pathLE := fun a b =>
  inferInstanceAs (Decidable (lexLe a.data b.data = true))

/-- `sorted(root.iterdir())` on the file names of one directory. -/
def sortFileNames (l : List String) : List String :=
  l.insertionSort pathLE

/-- One listing of the resolved bitwarden folder, as the remote returns it:
child folders under `data.folders` and files under `data.files` (the key
`cleanup_bitwarden_backups` reads uploaded backups from, line 234). -/
structure BitwardenRemote where
  subfolders : List RemoteEntry
  files : List RemoteEntry
deriving Repr

/-- The local file names `upload_bitwarden_backups` uploads (lines 294-298):
the local files in sorted order, kept when the suffix is `.json` and
`cloud_has_folder(session, key, cloud_folder_id, f.name)` is false.  That
presence check reads the resolved folder's child-folder listing
(`data.folders`); the folder's files (`data.files`) are never consulted. -/
def bitwarden_uploaded (localFiles : List String) (remote : BitwardenRemote) :
    List String :=
  (sortFileNames localFiles).filter
    (fun f => hasJsonSuffix f && ! cloud_has_folder remote.subfolders f)

/-- **C4**: the code contradicts the claim at its failing input.  A local
`.json` file whose exact name is already present remotely *as a file* in the
resolved bitwarden folder is uploaded again, because the presence check
inspects the `data.folders` array instead of `data.files`; a remote
*subfolder* of that name, which an upload never creates, is what would
suppress the upload. -/
theorem C4_presence_check_reads_wrong_listing :
    bitwarden_uploaded ["export-2024-01-01.json"]
        ⟨[], [⟨5, "export-2024-01-01.json", some 10⟩]⟩
      = ["export-2024-01-01.json"]
    ∧ bitwarden_uploaded ["export-2024-01-01.json"]
        ⟨[⟨6, "export-2024-01-01.json", none⟩], []⟩
      = [] := by
  decide

end UploadBackup
